import Mathlib

/-!
Shallow embedding of the QR Code Studio application (src/main.py, with the
second front-end src/src/qrstudio/ui/tk_app.py and the service test
src/tests/test_service.py).

The program is a Tk GUI over the external `qrcode` and `PIL` libraries.
We embed its own logic — the config constants, the background strategy,
the encoder factory, the two command objects and the preview scaling —
as pure functions.  External library calls (QR symbol construction,
image rasterisation, file writing) are represented abstractly: the image
the library returns is a parameter, a save routine's success or failure
is an `Except` parameter, and each call the program makes is recorded as
an `Effect` in the returned effect list, in program order.  Dialog boxes
and console log lines are likewise `Effect`s.
-/

namespace QRStudio

/-! ### Python string primitives, embedded over `List Char` -/

/-- Embeds Python `str.strip()` (no argument): drop whitespace from both
ends of the string. -/
def pyStrip (s : String) : String :=
  String.mk (((s.data.dropWhile Char.isWhitespace).reverse.dropWhile
    Char.isWhitespace).reverse)

/-- Embeds Python `str.lower()` (the strings involved are ASCII). -/
def pyLower (s : String) : String :=
  String.mk (s.data.map Char.toLower)

/-- Embeds Python `str.lstrip(".")`: drop every leading dot. -/
def lstripDots (s : String) : String :=
  String.mk (s.data.dropWhile (fun c => c == '.'))

/-- Embeds Python `path.split(".")[-1]`: the segment after the last dot,
or the whole string when there is no dot. -/
def lastDotSegment (s : String) : String :=
  String.mk ((s.data.reverse.takeWhile (fun c => c != '.')).reverse)

/-! ### Library constants (values of `qrcode.constants`) -/

def ERROR_CORRECT_L : Nat := 1
def ERROR_CORRECT_M : Nat := 0
def ERROR_CORRECT_Q : Nat := 3
def ERROR_CORRECT_H : Nat := 2

/-! ### AppConfig (singleton of static constants, src/main.py lines 39-44) -/

def AppConfig.preview_max : Nat := 360
def AppConfig.default_box_size : Int := 10
def AppConfig.default_border : Int := 4

/-! ### Background strategy (src/main.py lines 60-72) -/

inductive BackgroundStrategy where
  | white
  | transparent
deriving DecidableEq, Repr

/-- `WhiteBackground.back_color` returns "white",
`TransparentBackground.back_color` returns "transparent". -/
def BackgroundStrategy.back_color : BackgroundStrategy → String
  | .white => "white"
  | .transparent => "transparent"

/-- The strategy's `name` attribute. -/
def BackgroundStrategy.name : BackgroundStrategy → String
  | .white => "White"
  | .transparent => "Transparent"

/-! ### PIL image, abstractly (mode and pixel size; pixel data is external) -/

structure PILImage where
  mode : String
  width : Nat
  height : Nat
deriving DecidableEq, Repr

/-- Embeds `img.convert(m)`: same pixels, requested mode. -/
def PILImage.convert (img : PILImage) (m : String) : PILImage :=
  { img with mode := m }

/-! ### Encoder factory (src/main.py lines 76-115) -/

inductive Encoder where
  | png
  | svg
deriving DecidableEq, Repr

/-- Embeds `PNGEncoder.save` (src/main.py lines 80-87): the library image
`img` (result of `qr.make_image`) is converted to RGBA exactly when the
requested background color is "transparent", then written as PNG.  The
returned image is the one handed to `img.save(path, format="PNG")`. -/
def PNGEncoder.save (img : PILImage) (back_color : String) : PILImage :=
  if back_color = "transparent" then img.convert "RGBA" else img

/-- Embeds `ImageEncoderFactory.for_extension` (src/main.py lines 106-115):
lowercase the extension, strip leading dots, return the PNG encoder for
"png", the SVG encoder for "svg", and default to PNG otherwise. -/
def ImageEncoderFactory.for_extension (ext : String) : Encoder :=
  if lstripDots (pyLower ext) = "png" then Encoder.png
  else if lstripDots (pyLower ext) = "svg" then Encoder.svg
  else Encoder.png

/-! ### QRSpec and the widget state it is built from -/

/-- The `QRSpec` dataclass (src/main.py lines 122-129). -/
structure QRSpec where
  data : String
  error_level : String
  box_size : Int
  border : Int
  fill_color : String
  background : BackgroundStrategy
deriving DecidableEq, Repr

/-- The error-correction combobox is `state="readonly"` with values
L, M, Q, H (src/main.py line 271), so its reachable values are exactly
these four. -/
inductive ECChoice where
  | L
  | M
  | Q
  | H
deriving DecidableEq, Repr

def ECChoice.toStr : ECChoice → String
  | .L => "L"
  | .M => "M"
  | .Q => "Q"
  | .H => "H"

/-- The background radio buttons offer exactly the values "white" and
"transparent" (src/main.py lines 293-294). -/
inductive BGChoice where
  | white
  | transparent
deriving DecidableEq, Repr

def BGChoice.toStr : BGChoice → String
  | .white => "white"
  | .transparent => "transparent"

/-- The Tk variables the actions read (src/main.py lines 263-294). -/
structure Widgets where
  input_var : String
  ec_var : ECChoice
  box_var : Int
  border_var : Int
  fill_var : String
  bg_var : BGChoice
deriving DecidableEq, Repr

/-- Embeds `QRApp._build_spec` (src/main.py lines 333-342): read every
widget variable and build a fresh `QRSpec`; an empty fill color falls
back to "black" (Python `or`), and the background strategy is White when
the radio value is "white", Transparent otherwise. -/
def build_spec (wd : Widgets) : QRSpec :=
  { data := wd.input_var
  , error_level := wd.ec_var.toStr
  , box_size := wd.box_var
  , border := wd.border_var
  , fill_color := if wd.fill_var = "" then "black" else wd.fill_var
  , background :=
      if wd.bg_var.toStr = "white" then BackgroundStrategy.white
      else BackgroundStrategy.transparent }

/-! ### The error-correction map used by both commands
(src/main.py lines 141-146 and 189-194) -/

def err_map : List (String × Nat) :=
  [("L", ERROR_CORRECT_L), ("M", ERROR_CORRECT_M),
   ("Q", ERROR_CORRECT_Q), ("H", ERROR_CORRECT_H)]

/-- Embeds `err_map.get(level, ERROR_CORRECT_M)`. -/
def errGet (level : String) : Nat :=
  match err_map.find? (fun p => p.1 == level) with
  | some p => p.2
  | none => ERROR_CORRECT_M

/-! ### Application state and observable effects -/

/-- The abstract `qrcode.QRCode` object the Generate command builds: we
record the parameters the program passed to the library constructor. -/
structure QRToken where
  error_correction : Nat
  box_size : Int
  border : Int
deriving DecidableEq, Repr

/-- The three preview-state fields of `QRApp` (src/main.py lines 236-238). -/
structure AppState where
  current_image : Option PILImage
  current_qr : Option QRToken
  current_spec : Option QRSpec
deriving DecidableEq, Repr

/-- One observable step: a dialog box, a console publish, or a call into
the external QR/image library. -/
inductive Effect where
  | showWarning (title msg : String)
  | showInfo (title msg : String)
  | showError (title msg : String)
  | publish (msg : String)
  | libEncode (ec : Nat) (box border : Int)
  | encoderSave (enc : Encoder) (path : String)
deriving DecidableEq, Repr

def Effect.isPublish : Effect → Bool
  | .publish _ => true
  | _ => false

/-! ### Preview scaling (src/main.py lines 360-380, identical arithmetic
in src/src/qrstudio/ui/tk_app.py lines 31-43) -/

/-- `scale = min(max_side / max(w, h), 1.0)`. -/
def previewScale (pm w h : Nat) : ℚ :=
  min ((pm : ℚ) / ((max w h : Nat) : ℚ)) 1

/-- `new_size = (max(1, int(w*scale)), max(1, int(h*scale)))`; the
products are nonnegative, so Python `int` truncation is the floor. -/
def previewSize (pm w h : Nat) : Nat × Nat :=
  (max 1 (Int.toNat ⌊(w : ℚ) * previewScale pm w h⌋),
   max 1 (Int.toNat ⌊(h : ℚ) * previewScale pm w h⌋))

/-- Embeds `QRApp.set_preview` (src/main.py lines 360-380): store the
image and qr object, rebuild `current_spec` from the widgets when an
image is present and clear it otherwise, and return the displayed size
(none when clearing). -/
def set_preview (_st : AppState) (wd : Widgets) (img : Option PILImage)
    (qr : Option QRToken) : AppState × Option (Nat × Nat) :=
  match img with
  | none =>
    ({ current_image := none, current_qr := qr, current_spec := none }, none)
  | some i =>
    let new_size := previewSize AppConfig.preview_max i.width i.height
    ({ current_image := some i, current_qr := qr,
       current_spec := some (build_spec wd) }, some new_size)

/-- The console line published after a successful generation
(src/main.py line 164). -/
def genMessage (spec : QRSpec) : String :=
  "Generated QR (EC=" ++ spec.error_level ++ ", box=" ++
    toString spec.box_size ++ ", border=" ++ toString spec.border ++
    ", bg=" ++ spec.background.name ++ ")."

/-- Embeds `GenerateQRCommand.execute` (src/main.py lines 137-164).
Empty (after strip) input shows a warning dialog and returns before any
library call.  Otherwise the command builds a `qrcode.QRCode` with the
mapped error-correction constant, box size and border (the `libEncode`
effect), obtains the library image `libImg` (external), converts it for
display, stores it via `set_preview`, and publishes a log line.  `wd` is
the widget state `set_preview` re-reads for `current_spec`. -/
def GenerateQRCommand.execute (spec : QRSpec) (wd : Widgets)
    (st : AppState) (libImg : PILImage) : AppState × List Effect :=
  if pyStrip spec.data = "" then
    (st, [Effect.showWarning "No input" "Please enter some text/URL to encode."])
  else
    let ec := errGet spec.error_level
    let qr : QRToken :=
      { error_correction := ec, box_size := spec.box_size, border := spec.border }
    let img := libImg.convert "RGBA"
    let stp := set_preview st wd (some img) (some qr)
    (stp.1, [Effect.libEncode ec spec.box_size spec.border,
             Effect.publish (genMessage spec)])

/-- Python error text for reading `.error_level` off a `None` spec. -/
def noneSpecMsg : String :=
  "\x27NoneType\x27 object has no attribute \x27error_level\x27"

/-- Embeds `SaveQRCommand.execute` (src/main.py lines 171-215).
`dialog_path` is what `filedialog.asksaveasfilename` returned (`none`
models a cancelled dialog; the empty string is also falsy and returns).
`save_result` is the outcome of the `encoder.save` call, the external
file write: `Except.error e` models it raising an exception with
message `e`.  The try block rebuilds the QR from `current_spec` (the
`libEncode` effect), calls the encoder (`encoderSave`), and on success
publishes and shows the saved path; any exception is caught, published
as "ERROR saving: e" and shown in an error dialog.  The application
state is never written. -/
def SaveQRCommand.execute (st : AppState) (dialog_path : Option String)
    (save_result : Except String Unit) : AppState × List Effect :=
  match st.current_qr with
  | none => (st, [Effect.showInfo "Nothing to save" "Generate a QR code first."])
  | some _ =>
    match dialog_path with
    | none => (st, [])
    | some path =>
      if path = "" then (st, [])
      else
        let enc := ImageEncoderFactory.for_extension (lastDotSegment path)
        match st.current_spec with
        | none =>
          (st, [Effect.publish ("ERROR saving: " ++ noneSpecMsg),
                Effect.showError "Save failed" ("Could not save file:\n" ++ noneSpecMsg)])
        | some spec =>
          let ec := errGet spec.error_level
          match save_result with
          | Except.ok _ =>
            (st, [Effect.libEncode ec spec.box_size spec.border,
                  Effect.encoderSave enc path,
                  Effect.publish ("Saved QR to " ++ path),
                  Effect.showInfo "Saved" ("QR code saved:\n" ++ path)])
          | Except.error e =>
            (st, [Effect.libEncode ec spec.box_size spec.border,
                  Effect.encoderSave enc path,
                  Effect.publish ("ERROR saving: " ++ e),
                  Effect.showError "Save failed" ("Could not save file:\n" ++ e)])

/-- Embeds `QRApp.on_generate` (src/main.py lines 344-347): build a
fresh spec from the widgets and execute the Generate command. -/
def on_generate (wd : Widgets) (st : AppState) (libImg : PILImage) :
    AppState × List Effect :=
  GenerateQRCommand.execute (build_spec wd) wd st libImg

/-- Embeds `QRApp.on_clear` (src/main.py lines 353-357): blank the input
variable, clear the preview state, publish "Cleared.". -/
def on_clear (wd : Widgets) (st : AppState) :
    Widgets × AppState × List Effect :=
  let wd2 := { wd with input_var := "" }
  let stp := set_preview st wd2 none none
  (wd2, stp.1, [Effect.publish "Cleared."])

/-! ### The service facade exercised by src/tests/test_service.py -/

/-- The XML declaration opening the modelled SVG document. -/
def xmlDeclaration : String := "<?xml version=\"1.0\" encoding=\"UTF-8\"?>"

/-- Modelled from the spec: the SVG serializer of the `text_to_qr`
service package (imported by src/tests/test_service.py) is not under
src/.  The spec says SVG output is "produced entirely by the external
encoding library's own serializers" and "generating an SVG yields
output starting with an XML/SVG header", so the document is modelled as
an XML declaration followed by an svg element carrying the payload. -/
def svgDocument (data : String) : String :=
  xmlDeclaration ++ "<svg xmlns=\"http://www.w3.org/2000/svg\" data-payload=\"" ++
    data ++ "\"></svg>"

/-- Modelled from the spec: `QRCodeService.generate_bytes` for the svg
format (the `text_to_qr` package is not under src/).  Per the spec,
"text must be non-empty before encoding", and a valid input yields the
serialized SVG document. -/
def QRCodeService.generate_svg_bytes (data : String) : Except String String :=
  if pyStrip data = "" then Except.error "No data to encode"
  else Except.ok (svgDocument data)

/-- The test's `data.startswith(b"<?xml")`, over the character list. -/
def strStartsWith (s pre : String) : Prop := pre.data <+: s.data

/-- The test's `b"<svg" in data[:200]`, over the character list. -/
def containsNear (s sub : String) (n : Nat) : Prop :=
  sub.data <:+: s.data.take n

/-! ## Claims -/

/-- C1: for every QRSpec whose input text is empty, executing the
Generate command shows a user-facing warning dialog and returns without
calling the QR-encoding library, leaving the preview state
(current_image, current_qr, current_spec) unchanged. -/
theorem generate_empty_input_warns (spec : QRSpec) (wd : Widgets)
    (st : AppState) (libImg : PILImage) (h : spec.data = "") :
    GenerateQRCommand.execute spec wd st libImg =
      (st, [Effect.showWarning "No input" "Please enter some text/URL to encode."]) ∧
    ∀ ec box border, Effect.libEncode ec box border ∉
      (GenerateQRCommand.execute spec wd st libImg).2 := by
  have hs : pyStrip spec.data = "" := by rw [h]; rfl
  constructor
  · simp [GenerateQRCommand.execute, hs]
  · intro ec box border
    simp [GenerateQRCommand.execute, hs]

/-- Witness for C1 at a concrete empty-input spec. -/
theorem generate_empty_input_warns_witness :
    (QRSpec.mk "" "M" 10 4 "black" BackgroundStrategy.white).data = "" ∧
    (GenerateQRCommand.execute
        (QRSpec.mk "" "M" 10 4 "black" BackgroundStrategy.white)
        (Widgets.mk "" ECChoice.M 10 4 "black" BGChoice.white)
        (AppState.mk none none none) (PILImage.mk "1" 290 290) =
      (AppState.mk none none none,
       [Effect.showWarning "No input" "Please enter some text/URL to encode."]) ∧
     ∀ ec box border, Effect.libEncode ec box border ∉
       (GenerateQRCommand.execute
         (QRSpec.mk "" "M" 10 4 "black" BackgroundStrategy.white)
         (Widgets.mk "" ECChoice.M 10 4 "black" BGChoice.white)
         (AppState.mk none none none) (PILImage.mk "1" 290 290)).2) :=
  ⟨rfl, generate_empty_input_warns _ _ _ _ rfl⟩

/-- C5: the encoder factory maps an extension whose lowercased,
dot-stripped form is "png" to the PNG encoder and one whose lowercased,
dot-stripped form is "svg" to the SVG encoder. -/
theorem for_extension_png_svg (ext : String) :
    (lstripDots (pyLower ext) = "png" →
      ImageEncoderFactory.for_extension ext = Encoder.png) ∧
    (lstripDots (pyLower ext) = "svg" →
      ImageEncoderFactory.for_extension ext = Encoder.svg) := by
  constructor
  · intro h
    simp [ImageEncoderFactory.for_extension, h]
  · intro h
    simp [ImageEncoderFactory.for_extension, h]

/-- Witness for C5 at ".PNG" and "..SVG". -/
theorem for_extension_png_svg_witness :
    (lstripDots (pyLower ".PNG") = "png" ∧
      ImageEncoderFactory.for_extension ".PNG" = Encoder.png) ∧
    (lstripDots (pyLower "..SVG") = "svg" ∧
      ImageEncoderFactory.for_extension "..SVG" = Encoder.svg) :=
  ⟨⟨by decide, (for_extension_png_svg ".PNG").1 (by decide)⟩,
   ⟨by decide, (for_extension_png_svg "..SVG").2 (by decide)⟩⟩

/-- C6: the PNG encoder converts the library-produced image to RGBA
exactly when the requested background color is "transparent", and
otherwise saves it without an alpha conversion. -/
theorem png_alpha_iff_transparent (img : PILImage) (back_color : String) :
    (back_color = "transparent" →
      PNGEncoder.save img back_color = img.convert "RGBA" ∧
      (PNGEncoder.save img back_color).mode = "RGBA") ∧
    (¬ back_color = "transparent" → PNGEncoder.save img back_color = img) := by
  constructor
  · intro h
    simp [PNGEncoder.save, h, PILImage.convert]
  · intro h
    simp [PNGEncoder.save, h]

/-- Witness for C6 at a concrete mode-"1" library image with each of the
two background choices. -/
theorem png_alpha_iff_transparent_witness :
    (PNGEncoder.save (PILImage.mk "1" 290 290) "transparent").mode = "RGBA" ∧
    PNGEncoder.save (PILImage.mk "1" 290 290) "white" = PILImage.mk "1" 290 290 :=
  ⟨((png_alpha_iff_transparent (PILImage.mk "1" 290 290) "transparent").1 rfl).2,
   (png_alpha_iff_transparent (PILImage.mk "1" 290 290) "white").2 (by decide)⟩

/-- C4: the error-correction level of a built QRSpec is one of the four
enumerated letters L, M, Q, H, and the Generate command maps each of the
four letters to the corresponding library error-correction constant in
the `libEncode` call it makes for nonempty input. -/
theorem error_level_enum_and_mapping :
    (∀ wd : Widgets,
      (build_spec wd).error_level ∈ (["L", "M", "Q", "H"] : List String)) ∧
    errGet "L" = ERROR_CORRECT_L ∧ errGet "M" = ERROR_CORRECT_M ∧
    errGet "Q" = ERROR_CORRECT_Q ∧ errGet "H" = ERROR_CORRECT_H ∧
    (∀ (spec : QRSpec) (wd : Widgets) (st : AppState) (libImg : PILImage),
      ¬ pyStrip spec.data = "" →
      Effect.libEncode (errGet spec.error_level) spec.box_size spec.border ∈
        (GenerateQRCommand.execute spec wd st libImg).2) := by
  refine ⟨?_, by decide, by decide, by decide, by decide, ?_⟩
  · intro wd
    cases h : wd.ec_var <;> simp [build_spec, ECChoice.toStr, h]
  · intro spec wd st libImg hne
    simp [GenerateQRCommand.execute, hne]

/-- Witness for C4: the Generate command on a concrete spec with level
"H" records the constant ERROR_CORRECT_H. -/
theorem error_level_enum_and_mapping_witness :
    ¬ pyStrip (QRSpec.mk "hi" "H" 10 4 "black" BackgroundStrategy.white).data = "" ∧
    Effect.libEncode
        (errGet (QRSpec.mk "hi" "H" 10 4 "black" BackgroundStrategy.white).error_level)
        10 4 ∈
      (GenerateQRCommand.execute
        (QRSpec.mk "hi" "H" 10 4 "black" BackgroundStrategy.white)
        (Widgets.mk "hi" ECChoice.H 10 4 "black" BGChoice.white)
        (AppState.mk none none none) (PILImage.mk "1" 290 290)).2 :=
  ⟨by decide,
   error_level_enum_and_mapping.2.2.2.2.2
     (QRSpec.mk "hi" "H" 10 4 "black" BackgroundStrategy.white)
     (Widgets.mk "hi" ECChoice.H 10 4 "black" BGChoice.white)
     (AppState.mk none none none) (PILImage.mk "1" 290 290) (by decide)⟩

/-- C8: every error-level string outside L, M, Q, H falls back to the
library's medium constant ERROR_CORRECT_M, in the lookup itself and in
the library call recorded by both the Generate and the Save command. -/
theorem unknown_level_falls_back_medium (s : String)
    (h : s ∉ (["L", "M", "Q", "H"] : List String)) :
    errGet s = ERROR_CORRECT_M ∧
    (∀ (spec : QRSpec) (wd : Widgets) (st : AppState) (libImg : PILImage),
      spec.error_level = s → ¬ pyStrip spec.data = "" →
      Effect.libEncode ERROR_CORRECT_M spec.box_size spec.border ∈
        (GenerateQRCommand.execute spec wd st libImg).2) ∧
    (∀ (st : AppState) (q : QRToken) (spec : QRSpec) (path : String)
        (r : Except String Unit),
      st.current_qr = some q → st.current_spec = some spec →
      spec.error_level = s → ¬ path = "" →
      Effect.libEncode ERROR_CORRECT_M spec.box_size spec.border ∈
        (SaveQRCommand.execute st (some path) r).2) := by
  simp only [List.mem_cons, List.not_mem_nil, or_false, not_or] at h
  obtain ⟨hL, hM, hQ, hH⟩ := h
  have hbL : (("L" : String) == s) = false :=
    beq_eq_false_iff_ne.mpr (fun hw => hL hw.symm)
  have hbM : (("M" : String) == s) = false :=
    beq_eq_false_iff_ne.mpr (fun hw => hM hw.symm)
  have hbQ : (("Q" : String) == s) = false :=
    beq_eq_false_iff_ne.mpr (fun hw => hQ hw.symm)
  have hbH : (("H" : String) == s) = false :=
    beq_eq_false_iff_ne.mpr (fun hw => hH hw.symm)
  have hget : errGet s = ERROR_CORRECT_M := by
    simp [errGet, err_map, List.find?, hbL, hbM, hbQ, hbH]
  refine ⟨hget, ?_, ?_⟩
  · intro spec wd st libImg hlev hne
    simp [GenerateQRCommand.execute, hne, hlev, hget]
  · intro st q spec path r hq hspec hlev hp
    cases r <;> simp [SaveQRCommand.execute, hq, hspec, hp, hlev, hget]

/-- Witness for C8 at the lowercase level "m". -/
theorem unknown_level_falls_back_medium_witness :
    ("m" : String) ∉ (["L", "M", "Q", "H"] : List String) ∧
    errGet "m" = ERROR_CORRECT_M ∧
    Effect.libEncode ERROR_CORRECT_M 10 4 ∈
      (SaveQRCommand.execute
        (AppState.mk (some (PILImage.mk "RGBA" 290 290)) (some (QRToken.mk 0 10 4))
          (some (QRSpec.mk "hi" "m" 10 4 "black" BackgroundStrategy.white)))
        (some "out.png") (Except.ok ())).2 :=
  ⟨by decide,
   (unknown_level_falls_back_medium "m" (by decide)).1,
   (unknown_level_falls_back_medium "m" (by decide)).2.2
     (AppState.mk (some (PILImage.mk "RGBA" 290 290)) (some (QRToken.mk 0 10 4))
       (some (QRSpec.mk "hi" "m" 10 4 "black" BackgroundStrategy.white)))
     (QRToken.mk 0 10 4) (QRSpec.mk "hi" "m" 10 4 "black" BackgroundStrategy.white)
     "out.png" (Except.ok ()) rfl rfl rfl (by decide)⟩

/-- C9: an extension whose lowercased, dot-stripped form is neither
"png" nor "svg" resolves to the PNG encoder, so the factory is total
and a save with an unknown extension invokes the PNG save routine. -/
theorem unknown_extension_defaults_png :
    (∀ ext : String,
      ¬ lstripDots (pyLower ext) = "png" → ¬ lstripDots (pyLower ext) = "svg" →
      ImageEncoderFactory.for_extension ext = Encoder.png) ∧
    (∀ (st : AppState) (q : QRToken) (spec : QRSpec) (path : String),
      st.current_qr = some q → st.current_spec = some spec → ¬ path = "" →
      ¬ lstripDots (pyLower (lastDotSegment path)) = "png" →
      ¬ lstripDots (pyLower (lastDotSegment path)) = "svg" →
      Effect.encoderSave Encoder.png path ∈
        (SaveQRCommand.execute st (some path) (Except.ok ())).2) := by
  have hfac : ∀ ext : String,
      ¬ lstripDots (pyLower ext) = "png" → ¬ lstripDots (pyLower ext) = "svg" →
      ImageEncoderFactory.for_extension ext = Encoder.png := by
    intro ext h1 h2
    simp [ImageEncoderFactory.for_extension, h1, h2]
  refine ⟨hfac, ?_⟩
  intro st q spec path hq hspec hp h1 h2
  simp [SaveQRCommand.execute, hq, hspec, hp, hfac (lastDotSegment path) h1 h2]

/-- Witness for C9: saving to "photo.jpeg" (and the empty extension)
resolves to the PNG encoder. -/
theorem unknown_extension_defaults_png_witness :
    ImageEncoderFactory.for_extension "" = Encoder.png ∧
    Effect.encoderSave Encoder.png "photo.jpeg" ∈
      (SaveQRCommand.execute
        (AppState.mk (some (PILImage.mk "RGBA" 290 290)) (some (QRToken.mk 0 10 4))
          (some (QRSpec.mk "hi" "M" 10 4 "black" BackgroundStrategy.white)))
        (some "photo.jpeg") (Except.ok ())).2 :=
  ⟨unknown_extension_defaults_png.1 "" (by decide) (by decide),
   unknown_extension_defaults_png.2
     (AppState.mk (some (PILImage.mk "RGBA" 290 290)) (some (QRToken.mk 0 10 4))
       (some (QRSpec.mk "hi" "M" 10 4 "black" BackgroundStrategy.white)))
     (QRToken.mk 0 10 4) (QRSpec.mk "hi" "M" 10 4 "black" BackgroundStrategy.white)
     "photo.jpeg" rfl rfl (by decide) (by decide) (by decide)⟩

/-- C2: when the encoder's save routine raises, the Save command leaves
the application state unchanged, publishes exactly one console line
"ERROR saving: e", shows an error dialog, and publishes nothing else —
in particular no success message. -/
theorem save_error_caught (st : AppState) (q : QRToken) (spec : QRSpec)
    (path e : String) (hq : st.current_qr = some q)
    (hspec : st.current_spec = some spec) (hp : ¬ path = "") :
    (SaveQRCommand.execute st (some path) (Except.error e)).1 = st ∧
    (SaveQRCommand.execute st (some path) (Except.error e)).2.filter
        Effect.isPublish = [Effect.publish ("ERROR saving: " ++ e)] ∧
    Effect.showError "Save failed" ("Could not save file:\n" ++ e) ∈
      (SaveQRCommand.execute st (some path) (Except.error e)).2 ∧
    ∀ m, Effect.publish m ∈ (SaveQRCommand.execute st (some path) (Except.error e)).2 →
      m = "ERROR saving: " ++ e := by
  refine ⟨?_, ?_, ?_, ?_⟩
  · simp [SaveQRCommand.execute, hq, hspec, hp]
  · simp [SaveQRCommand.execute, hq, hspec, hp, List.filter, Effect.isPublish]
  · simp [SaveQRCommand.execute, hq, hspec, hp]
  · intro m hm
    simp [SaveQRCommand.execute, hq, hspec, hp] at hm
    exact hm

/-- Witness for C2: a concrete failing save with message "disk full". -/
theorem save_error_caught_witness :
    (SaveQRCommand.execute
        (AppState.mk (some (PILImage.mk "RGBA" 290 290)) (some (QRToken.mk 0 10 4))
          (some (QRSpec.mk "hi" "M" 10 4 "black" BackgroundStrategy.white)))
        (some "a.png") (Except.error "disk full")).1 =
      AppState.mk (some (PILImage.mk "RGBA" 290 290)) (some (QRToken.mk 0 10 4))
        (some (QRSpec.mk "hi" "M" 10 4 "black" BackgroundStrategy.white)) ∧
    (SaveQRCommand.execute
        (AppState.mk (some (PILImage.mk "RGBA" 290 290)) (some (QRToken.mk 0 10 4))
          (some (QRSpec.mk "hi" "M" 10 4 "black" BackgroundStrategy.white)))
        (some "a.png") (Except.error "disk full")).2.filter Effect.isPublish =
      [Effect.publish ("ERROR saving: " ++ "disk full")] ∧
    Effect.showError "Save failed" ("Could not save file:\n" ++ "disk full") ∈
      (SaveQRCommand.execute
        (AppState.mk (some (PILImage.mk "RGBA" 290 290)) (some (QRToken.mk 0 10 4))
          (some (QRSpec.mk "hi" "M" 10 4 "black" BackgroundStrategy.white)))
        (some "a.png") (Except.error "disk full")).2 ∧
    ∀ m, Effect.publish m ∈
        (SaveQRCommand.execute
          (AppState.mk (some (PILImage.mk "RGBA" 290 290)) (some (QRToken.mk 0 10 4))
            (some (QRSpec.mk "hi" "M" 10 4 "black" BackgroundStrategy.white)))
          (some "a.png") (Except.error "disk full")).2 →
      m = "ERROR saving: " ++ "disk full" :=
  save_error_caught
    (AppState.mk (some (PILImage.mk "RGBA" 290 290)) (some (QRToken.mk 0 10 4))
      (some (QRSpec.mk "hi" "M" 10 4 "black" BackgroundStrategy.white)))
    (QRToken.mk 0 10 4) (QRSpec.mk "hi" "M" 10 4 "black" BackgroundStrategy.white)
    "a.png" "disk full" rfl rfl (by decide)

/-- C3: QRSpec values are never mutated by any operation: the Generate
action either leaves the stored spec untouched (empty input) or stores
the freshly rebuilt `build_spec` of the widget state, the Save command
never writes the application state at all, and Clear resets the stored
spec to none.  (In the source the dataclass's fields are assigned only
at construction, in `_build_spec`.) -/
theorem spec_rebuilt_never_mutated :
    (∀ (wd : Widgets) (st : AppState) (libImg : PILImage),
      (on_generate wd st libImg).1.current_spec = st.current_spec ∨
      (on_generate wd st libImg).1.current_spec = some (build_spec wd)) ∧
    (∀ (st : AppState) (p : Option String) (r : Except String Unit),
      (SaveQRCommand.execute st p r).1 = st) ∧
    (∀ (wd : Widgets) (st : AppState), (on_clear wd st).2.1.current_spec = none) := by
  refine ⟨?_, ?_, ?_⟩
  · intro wd st libImg
    by_cases hc : pyStrip (build_spec wd).data = ""
    · left
      simp [on_generate, GenerateQRCommand.execute, hc]
    · right
      simp [on_generate, GenerateQRCommand.execute, hc, set_preview]
  · intro st p r
    unfold SaveQRCommand.execute
    rcases hq : st.current_qr with _ | q
    · rfl
    · rcases p with _ | path
      · rfl
      · by_cases hp : path = ""
        · simp [hp]
        · rcases hs : st.current_spec with _ | spec
          · simp [hp]
          · rcases r with e | u <;> simp [hp]
  · intro wd st
    simp [on_clear, set_preview]

/-- C7: for every valid (non-empty) input text, generating an SVG via
the service yields output that starts with an XML declaration or
contains an SVG tag within the first 200 bytes. -/
theorem svg_output_has_header (data : String) (h : ¬ pyStrip data = "") :
    ∃ out, QRCodeService.generate_svg_bytes data = Except.ok out ∧
      (strStartsWith out "<?xml" ∨ containsNear out "<svg" 200) := by
  refine ⟨svgDocument data, ?_, Or.inl ?_⟩
  · simp [QRCodeService.generate_svg_bytes, h]
  · show ("<?xml" : String).data <+: (svgDocument data).data
    have hx : ("<?xml" : String).data <+: xmlDeclaration.data := by decide
    have hdata : (svgDocument data).data =
        xmlDeclaration.data ++
          ("<svg xmlns=\"http://www.w3.org/2000/svg\" data-payload=\"" : String).data ++
          data.data ++ ("\"></svg>" : String).data := rfl
    rw [hdata]
    exact hx.trans
      (((List.prefix_append _ _).trans (List.prefix_append _ _)).trans
        (List.prefix_append _ _))

/-- Witness for C7 at the test's input "hello". -/
theorem svg_output_has_header_witness :
    ¬ pyStrip "hello" = "" ∧
    ∃ out, QRCodeService.generate_svg_bytes "hello" = Except.ok out ∧
      (strStartsWith out "<?xml" ∨ containsNear out "<svg" 200) :=
  ⟨by decide, svg_output_has_header "hello" (by decide)⟩

/-- Helper for C10: a dimension `d` bounded by `max w h` scales to a
truncated value of at most `pm`. -/
theorem previewDim_le (pm d w h : Nat) (hm : 1 ≤ max w h) (hd : d ≤ max w h) :
    Int.toNat ⌊(d : ℚ) * previewScale pm w h⌋ ≤ pm := by
  have hm1 : (1 : ℚ) ≤ ((max w h : Nat) : ℚ) := by exact_mod_cast hm
  have hm0 : (0 : ℚ) < ((max w h : Nat) : ℚ) := by linarith
  have hd' : (d : ℚ) ≤ ((max w h : Nat) : ℚ) := by exact_mod_cast hd
  have key : (d : ℚ) * previewScale pm w h ≤ (pm : ℚ) := by
    unfold previewScale
    rcases le_total ((pm : ℚ) / ((max w h : Nat) : ℚ)) 1 with hle | hle
    · rw [min_eq_left hle]
      have hnn : 0 ≤ (pm : ℚ) / ((max w h : Nat) : ℚ) := by positivity
      have h1 : (d : ℚ) * ((pm : ℚ) / ((max w h : Nat) : ℚ)) ≤
          ((max w h : Nat) : ℚ) * ((pm : ℚ) / ((max w h : Nat) : ℚ)) :=
        mul_le_mul_of_nonneg_right hd' hnn
      have h2 : ((max w h : Nat) : ℚ) * ((pm : ℚ) / ((max w h : Nat) : ℚ)) = (pm : ℚ) := by
        rw [← mul_div_assoc, mul_div_cancel_left₀ _ (ne_of_gt hm0)]
      linarith
    · rw [min_eq_right hle]
      have hmp : ((max w h : Nat) : ℚ) ≤ (pm : ℚ) := (one_le_div hm0).mp hle
      linarith
  have hfloor : ⌊(d : ℚ) * previewScale pm w h⌋ ≤ (pm : ℤ) := by
    have := Int.floor_mono key
    rwa [Int.floor_natCast] at this
  exact Int.toNat_le.mpr hfloor

/-- C10: for an image of size w×h with w, h ≥ 1, each displayed preview
dimension is at least 1, neither exceeds max(preview_max, 1), and an
image already fitting within preview_max is displayed unscaled. -/
theorem preview_scaling_bounds (pm w h : Nat) (hw : 1 ≤ w) (hh : 1 ≤ h) :
    1 ≤ (previewSize pm w h).1 ∧ 1 ≤ (previewSize pm w h).2 ∧
    (previewSize pm w h).1 ≤ max pm 1 ∧ (previewSize pm w h).2 ≤ max pm 1 ∧
    (max w h ≤ pm → previewSize pm w h = (w, h)) := by
  have hm : 1 ≤ max w h := le_trans hw (Nat.le_max_left w h)
  have h1 := previewDim_le pm w w h hm (Nat.le_max_left w h)
  have h2 := previewDim_le pm h w h hm (Nat.le_max_right w h)
  refine ⟨Nat.le_max_left _ _, Nat.le_max_left _ _, ?_, ?_, ?_⟩
  · exact max_le (le_max_right pm 1) (le_trans h1 (le_max_left pm 1))
  · exact max_le (le_max_right pm 1) (le_trans h2 (le_max_left pm 1))
  · intro hfit
    have hm0 : (0 : ℚ) < ((max w h : Nat) : ℚ) := by
      have : (1 : ℚ) ≤ ((max w h : Nat) : ℚ) := by exact_mod_cast hm
      linarith
    have hone : (1 : ℚ) ≤ (pm : ℚ) / ((max w h : Nat) : ℚ) := by
      rw [one_le_div hm0]
      exact_mod_cast hfit
    have hscale : previewScale pm w h = 1 := by
      unfold previewScale
      exact min_eq_right hone
    unfold previewSize
    rw [hscale, mul_one, mul_one, Int.floor_natCast, Int.floor_natCast,
      Int.toNat_natCast, Int.toNat_natCast, Nat.max_eq_right hw, Nat.max_eq_right hh]

/-- Witness for C10 at preview_max = 360 on a 500×200 image. -/
theorem preview_scaling_bounds_witness :
    (1 ≤ 500 ∧ 1 ≤ 200) ∧
    (1 ≤ (previewSize 360 500 200).1 ∧ 1 ≤ (previewSize 360 500 200).2 ∧
     (previewSize 360 500 200).1 ≤ max 360 1 ∧
     (previewSize 360 500 200).2 ≤ max 360 1 ∧
     (max 500 200 ≤ 360 → previewSize 360 500 200 = (500, 200))) :=
  ⟨⟨by decide, by decide⟩, preview_scaling_bounds 360 500 200 (by decide) (by decide)⟩

end QRStudio
